import Mathlib

/-!
Verification of the Theia type hierarchy client (typehierarchy-service.ts,
typehierarchy-feature.ts, typehierarchy-protocol.ts) against its design
specification. The request normalization pipeline is embedded as pure
functions; the feature and service lifecycle (events, registration,
disposal) is embedded as a fuel-indexed operational model. Event delivery
semantics for the platform Emitter and DisposableCollection, which live in
the platform core outside this package, are modelled from the spec:
lifecycle events are delivered synchronously to subscribers in
registration order.
-/

namespace Theia

/-- LSP position, zero based line and character, as used by
typehierarchy-service.ts through vscode-languageserver-types. -/
structure Position where
  line : Nat
  character : Nat
deriving DecidableEq

/-- LSP range with a start and an end position. -/
structure Range where
  start : Position
  «end» : Position
deriving DecidableEq

/-- LSP text document identifier, a bare uri. -/
structure TextDocumentIdentifier where
  uri : String
deriving DecidableEq

/-- LSP location, a uri plus a range. -/
structure Location where
  uri : String
  range : Range
deriving DecidableEq

/-- Direction field of TypeHierarchyParams in typehierarchy-protocol.ts:
valid values are parents, children, or both. -/
inductive Direction where
  | parents
  | children
  | both
deriving DecidableEq

/-- TypeHierarchyItem from typehierarchy-protocol.ts. The recursive
response side fields parents and children are omitted because nothing in
the embedded request path reads them; the opaque data token is modelled as
an optional string and kind (SymbolKind) as a number. -/
structure TypeHierarchyItem where
  name : String
  detail : Option String
  kind : Nat
  deprecated : Option Bool
  uri : String
  range : Range
  selectionRange : Range
  data : Option String
deriving DecidableEq

/-- TypeHierarchyParams from typehierarchy-protocol.ts:
TextDocumentPositionParams extended with optional resolve and direction. -/
structure TypeHierarchyParams where
  textDocument : TextDocumentIdentifier
  position : Position
  resolve : Option Nat
  direction : Option Direction
deriving DecidableEq

/-- The three argument shapes accepted by superTypes and subTypes in
typehierarchy-service.ts: an already position shaped parameter object, a
TypeHierarchyItem, or a Location. -/
inductive Arg where
  | params (p : TypeHierarchyParams)
  | item (i : TypeHierarchyItem)
  | loc (l : Location)
deriving DecidableEq

/-- TypeHierarchyService.isTextDocumentPositionParams: the structural check
that the argument has a position and a textDocument field. An item or a
location carries neither field, so only the params shape passes. -/
def isTextDocumentPositionParams : Arg → Bool
  | .params _ => true
  | .item _ => false
  | .loc _ => false

/-- TypeHierarchyService.toTextDocumentPositionParams: returns the argument
itself when it already is a text document position parameter, otherwise
builds params from range.start and uri of the item or location. The built
object carries no resolve and no direction field. -/
def toTextDocumentPositionParams : Arg → TypeHierarchyParams
  | .params p => p
  | .item i =>
    { textDocument := { uri := i.uri }, position := i.range.start,
      resolve := none, direction := none }
  | .loc l =>
    { textDocument := { uri := l.uri }, position := l.range.start,
      resolve := none, direction := none }

/-- Parameter construction performed by TypeHierarchyService.types: convert
the argument, then set direction to the requested side and resolve to 1;
the source mutates the converted params object in place. -/
def typesParams (arg : Arg) (direction : Direction) : TypeHierarchyParams :=
  let params := toTextDocumentPositionParams arg
  { params with direction := some direction, resolve := some 1 }

/-- Request built by TypeHierarchyService.superTypes, direction parents. -/
def superTypesParams (arg : Arg) : TypeHierarchyParams :=
  typesParams arg .parents

/-- Request built by TypeHierarchyService.subTypes, direction children. -/
def subTypesParams (arg : Arg) : TypeHierarchyParams :=
  typesParams arg .children

/-- Wire result of a textDocument/typeHierarchy request: an item or the
protocol level null. -/
inductive TypeHierarchyResponse where
  | item (i : TypeHierarchyItem)
  | nullResponse
deriving DecidableEq

/-- TypeHierarchyFeature.get: sends the request over the transport and
normalizes a protocol level null response to undefined. The transport is
modelled as a function from params to the wire response. -/
def featGet (sendRequest : TypeHierarchyParams → TypeHierarchyResponse)
    (params : TypeHierarchyParams) : Option TypeHierarchyItem :=
  match sendRequest params with
  | .item i => some i
  | .nullResponse => none

/-- TypeHierarchyService.types: when a feature is mapped for the language,
build the params and delegate to get; otherwise return undefined. -/
def types (feature : Option (TypeHierarchyParams → TypeHierarchyResponse))
    (arg : Arg) (direction : Direction) : Option TypeHierarchyItem :=
  match feature with
  | some f => featGet f (typesParams arg direction)
  | none => none

/-- TypeHierarchyService.superTypes over the languageId to feature map. -/
def superTypes
    (features : String → Option (TypeHierarchyParams → TypeHierarchyResponse))
    (languageId : String) (arg : Arg) : Option TypeHierarchyItem :=
  types (features languageId) arg .parents

/-- TypeHierarchyService.subTypes over the languageId to feature map. -/
def subTypes
    (features : String → Option (TypeHierarchyParams → TypeHierarchyResponse))
    (languageId : String) (arg : Arg) : Option TypeHierarchyItem :=
  types (features languageId) arg .children

/-- TypeHierarchyType.flip from typehierarchy-feature.ts: maps subtype to
supertype and back; any other runtime string value throws. The thrown
Error is modelled as the error branch of Except. -/
def flip (type : String) : Except String String :=
  if type = "subtype" then .ok "supertype"
  else if type = "supertype" then .ok "subtype"
  else .error ("Unexpected type hierarchy type: " ++ type ++ ".")

/-- Lifecycle state of one TypeHierarchyFeature in the event model.
svcHandlers means the two subscriptions added by
TypeHierarchyService.register are still attached, that is the
DisposableCollection toDisposeOnFeatureDispose is alive. emittersOpen
means the onInitialized and onDisposed emitters, held in the features own
toDispose collection, have not been disposed. registered means the base
class stores a client registration whose disposable disposes toDispose,
see registerLanguageProvider in typehierarchy-feature.ts. -/
structure FeatSt where
  lang : String
  svcHandlers : Bool
  emittersOpen : Bool
  registered : Bool
deriving DecidableEq, Inhabited

/-- Observable events of the lifecycle model, in chronological order of a
log: emitter firings, service map installs and removals, and client
registrations performed during capability negotiation. -/
inductive Ev where
  | initializedFired (f : Nat)
  | disposedFired (f : Nat)
  | installed (f : Nat) (lang : String)
  | removed (lang : String)
  | clientRegistered (f : Nat) (id : Nat)
deriving DecidableEq

/-- Global state: the service map from languageId to feature index, the
feature states, the chronological event log, and the counter producing
fresh registration identifiers (modelling uuid v4). -/
structure St where
  featMap : List (String × Nat)
  feats : List FeatSt
  log : List Ev
  nextId : Nat
deriving DecidableEq

/-- Lookup in the service map, mirroring Map.get. -/
def mapLookup : List (String × Nat) → String → Option Nat
  | [], _ => none
  | (k, v) :: rest, key => if k = key then some v else mapLookup rest key

/-- Update or insert in the service map, mirroring Map.set. -/
def mapSet : List (String × Nat) → String → Nat → List (String × Nat)
  | [], key, v => [(key, v)]
  | (k, w) :: rest, key, v =>
    if k = key then (k, v) :: rest else (k, w) :: mapSet rest key v

/-- Removal from the service map, mirroring Map.delete. -/
def mapDelete : List (String × Nat) → String → List (String × Nat)
  | [], _ => []
  | (k, w) :: rest, key =>
    if k = key then rest else (k, w) :: mapDelete rest key

/-- The state of feature f. -/
def getFeat (st : St) (f : Nat) : FeatSt := st.feats.getD f default

/-- Replace the state of feature f. -/
def setFeat (st : St) (f : Nat) (fs : FeatSt) : St :=
  { st with feats := st.feats.set f fs }

/-- Append one observable event to the log. -/
def logEv (st : St) (e : Ev) : St := { st with log := st.log ++ [e] }

/-- Attach or detach the service handlers of feature f; detaching models
toDisposeOnFeatureDispose.dispose in the service. -/
def setHandlers (st : St) (f : Nat) (b : Bool) : St :=
  setFeat st f { getFeat st f with svcHandlers := b }

/-- Mark that capability negotiation stored a client registration for f. -/
def setRegistered (st : St) (f : Nat) : St :=
  setFeat st f { getFeat st f with registered := true }

/-- TextDocumentFeature.dispose in the base class disposes the stored
registration; its disposable disposes the features toDispose collection,
closing both emitters. Modelled from the platform contract in the spec:
after disposal the lifecycle streams are closed. -/
def superDispose (st : St) (f : Nat) : St :=
  if (getFeat st f).registered then
    setFeat st f { getFeat st f with emittersOpen := false, registered := false }
  else st

/-- TypeHierarchyFeature.dispose plus synchronous event delivery. The
method first fires the onDisposed emitter; if the service handlers from
TypeHierarchyService.register are attached, the handler runs synchronously:
when some feature is mapped for the languageId it calls dispose on that
mapped feature (which recurses through this very function), then deletes
the map entry, and finally disposes its own subscription collection. After
the fire returns, super.dispose runs. The fuel bounds the re-entrant
recursion through the emitter; exhausted fuel (the error branch) models a
run that never completes, and carries the log produced so far. -/
def featureDispose : Nat → St → Nat → Except St St
  | 0, st, _ => .error st
  | fuel + 1, st, f =>
    let fired : Except St St :=
      if (getFeat st f).emittersOpen then
        let st1 := logEv st (.disposedFired f)
        if (getFeat st1 f).svcHandlers then
          match mapLookup st1.featMap (getFeat st1 f).lang with
          | some mapped =>
            match featureDispose fuel st1 mapped with
            | .error st2 => .error st2
            | .ok st2 =>
              .ok (setHandlers
                (logEv { st2 with featMap := mapDelete st2.featMap (getFeat st1 f).lang }
                  (.removed (getFeat st1 f).lang)) f false)
          | none => .ok (setHandlers st1 f false)
        else .ok st1
      else .ok st
    match fired with
    | .error st2 => .error st2
    | .ok st2 => .ok (superDispose st2 f)

/-- Firing of the onInitialized emitter with synchronous delivery to the
service handler from TypeHierarchyService.register: when a feature is
already mapped for the languageId, dispose it first, then set the map
entry to the newly initialized feature. -/
def fireInitialized (fuel : Nat) (st : St) (f : Nat) : Except St St :=
  if (getFeat st f).emittersOpen then
    let st1 := logEv st (.initializedFired f)
    if (getFeat st1 f).svcHandlers then
      match mapLookup st1.featMap (getFeat st1 f).lang with
      | some oldFeature =>
        match featureDispose fuel st1 oldFeature with
        | .error st2 => .error st2
        | .ok st2 =>
          .ok (logEv { st2 with featMap := mapSet st2.featMap (getFeat st1 f).lang f }
            (.installed f (getFeat st1 f).lang))
      | none =>
        .ok (logEv { st1 with featMap := mapSet st1.featMap (getFeat st1 f).lang f }
          (.installed f (getFeat st1 f).lang))
    else .ok st1
  else .ok st

/-- Capability negotiation of TypeHierarchyFeature (its initialize method):
without a document selector nothing happens; when the server capability
typeHierarchy is set, the method first fires the onInitialized emitter,
then generates a fresh identifier and registers the client with it. There
is no guard against running twice. -/
def initializeFeature (fuel : Nat) (st : St) (f : Nat)
    (hasSelector : Bool) (typeHierarchy : Bool) : Except St St :=
  if !hasSelector then .ok st
  else if typeHierarchy then
    match fireInitialized fuel st f with
    | .error st1 => .error st1
    | .ok st1 =>
      .ok (setRegistered
        (logEv { st1 with nextId := st1.nextId + 1 } (.clientRegistered f st1.nextId)) f)
  else .ok st

/-- TypeHierarchyService.register: subscribes the two lifecycle handlers of
the feature; nothing else is observable at registration time. -/
def svcRegister (st : St) (f : Nat) : St := setHandlers st f true

/-- Log of a run, whether it completed or exhausted its fuel. -/
def resLog : Except St St → List Ev
  | .ok s => s.log
  | .error s => s.log

/-- True when a run completed without exhausting its fuel. -/
def completed : Except St St → Bool
  | .ok _ => true
  | .error _ => false

/-- Sequencing of two model steps, short-circuiting on divergence. -/
def bindE (x : Except St St) (g : St → Except St St) : Except St St :=
  match x with
  | .error s => .error s
  | .ok s => g s

/-- Checks that some occurrence of the first event is followed strictly
later in the log by an occurrence of the second event. -/
def firesBeforeB : List Ev → Ev → Ev → Bool
  | [], _, _ => false
  | x :: xs, a, b => (decide (x = a) && xs.contains b) || firesBeforeB xs a b

/-- Initial state with two fresh features, both for language x, neither
registered into the service yet. -/
def freshTwoFeatures : St :=
  { featMap := [],
    feats :=
      [{ lang := "x", svcHandlers := false, emittersOpen := true, registered := false },
       { lang := "x", svcHandlers := false, emittersOpen := true, registered := false }],
    log := [], nextId := 0 }

/-- Initial state with a single fresh feature for the given language. -/
def freshFeature (lang : String) : St :=
  { featMap := [],
    feats := [{ lang := lang, svcHandlers := false, emittersOpen := true, registered := false }],
    log := [], nextId := 0 }

/-- Feature 0 is registered into the service and completes negotiation, so
it becomes the mapped feature for language x; then feature 1 is registered
and completes its own negotiation, firing Initialized while 0 is mapped. -/
def scenarioSupersede (fuel : Nat) : Except St St :=
  bindE (initializeFeature fuel (svcRegister freshTwoFeatures 0) 0 true true) fun s =>
    initializeFeature fuel (svcRegister s 1) 1 true true

/-- Feature 0 becomes the mapped feature for language x; feature 1 is
registered into the service but never initialized, then feature 1 is
disposed, firing its Disposed event. -/
def scenarioForeignDispose (fuel : Nat) : Except St St :=
  bindE (initializeFeature fuel (svcRegister freshTwoFeatures 0) 0 true true) fun s =>
    featureDispose fuel (svcRegister s 1) 1

/-- One capability negotiation of a standalone fresh feature. -/
def negotiateOnce (lang : String) (fuel : Nat) : Except St St :=
  initializeFeature fuel (freshFeature lang) 0 true true

/-- Two capability negotiations in a row on the same feature with the same
supported capabilities and selector. -/
def negotiateTwice (lang : String) (fuel : Nat) : Except St St :=
  bindE (negotiateOnce lang fuel) fun s => initializeFeature fuel s 0 true true

/-- Two dispose calls in a row on a standalone feature that never
negotiated. -/
def disposeTwice (lang : String) (fuel : Nat) : Except St St :=
  bindE (featureDispose fuel (freshFeature lang) 0) fun s => featureDispose fuel s 0

/-- Negotiation followed by two dispose calls on a standalone feature. -/
def negotiateThenDisposeTwice (lang : String) (fuel : Nat) : Except St St :=
  bindE (negotiateOnce lang fuel) fun s =>
    bindE (featureDispose fuel s 0) fun s2 => featureDispose fuel s2 0

/-- State reached after feature 0 was registered and negotiated (so it is
mapped for x) and feature 1 was registered into the service. -/
def stRegisteredB : St :=
  { featMap := [("x", 0)],
    feats :=
      [{ lang := "x", svcHandlers := true, emittersOpen := true, registered := true },
       { lang := "x", svcHandlers := true, emittersOpen := true, registered := false }],
    log := [.initializedFired 0, .installed 0 "x", .clientRegistered 0 0],
    nextId := 1 }

/-- A position shaped argument that already carries resolve and direction
values, used to probe the pass-through behaviour. -/
def samplePositionParams : TypeHierarchyParams :=
  { textDocument := { uri := "file:///a.ts" },
    position := { line := 1, character := 2 },
    resolve := some 5, direction := some .parents }

/-- A concrete hierarchy item for witnesses. -/
def sampleItem : TypeHierarchyItem :=
  { name := "C", detail := none, kind := 5, deprecated := none,
    uri := "file:///a.ts",
    range := { start := { line := 3, character := 5 }, «end» := { line := 4, character := 0 } },
    selectionRange := { start := { line := 3, character := 5 }, «end» := { line := 3, character := 6 } },
    data := none }

/-- A transport that always answers with protocol level null. -/
def nullBackend : TypeHierarchyParams → TypeHierarchyResponse :=
  fun _ => .nullResponse

/-- A transport that always answers with the sample item. -/
def itemBackend : TypeHierarchyParams → TypeHierarchyResponse :=
  fun _ => .item sampleItem

/-- A service map with no feature mapped for any language. -/
def noFeatures : String → Option (TypeHierarchyParams → TypeHierarchyResponse) :=
  fun _ => none

@[simp] theorem getFeat_logEv (st : St) (e : Ev) (f : Nat) :
    getFeat (logEv st e) f = getFeat st f := rfl

@[simp] theorem featMap_logEv (st : St) (e : Ev) :
    (logEv st e).featMap = st.featMap := rfl

/-- Single unfolding step of featureDispose when the emitters are open, the
service handlers are attached, the map has an entry for the language of f,
and the recursive dispose of the mapped feature exhausts its fuel. -/
theorem featureDispose_step_mapped (n : Nat) (st : St) (f m : Nat) (X : St)
    (ho : (getFeat st f).emittersOpen = true)
    (hh : (getFeat st f).svcHandlers = true)
    (hm : mapLookup st.featMap (getFeat st f).lang = some m)
    (hdiv : featureDispose n (logEv st (Ev.disposedFired f)) m = .error X) :
    featureDispose (n + 1) st f = .error X := by
  simp only [featureDispose, getFeat_logEv, featMap_logEv, ho, hh, hm, hdiv,
    if_true, eq_self_iff_true]

/-- Single unfolding step of fireInitialized when an old feature is mapped
for the language of f and disposing it exhausts the fuel. -/
theorem fireInitialized_step_mapped (n : Nat) (st : St) (f old : Nat) (X : St)
    (ho : (getFeat st f).emittersOpen = true)
    (hh : (getFeat st f).svcHandlers = true)
    (hm : mapLookup st.featMap (getFeat st f).lang = some old)
    (hdiv : featureDispose n (logEv st (Ev.initializedFired f)) old = .error X) :
    fireInitialized n st f = .error X := by
  simp only [fireInitialized, getFeat_logEv, featMap_logEv, ho, hh, hm, hdiv,
    if_true, eq_self_iff_true]

/-- Negotiation propagates a diverging Initialized delivery. -/
theorem initializeFeature_of_fire_error (n : Nat) (st : St) (f : Nat) (X : St)
    (h : fireInitialized n st f = .error X) :
    initializeFeature n st f true true = .error X := by
  simp [initializeFeature, h]

/-- Disposing a feature that is itself the mapped feature for its language,
while the service handlers are attached, never terminates: each delivery of
the Disposed event re-invokes dispose on the still mapped feature. Every
fuel bound is exhausted, and the log grows by one Disposed firing per
unfolding. -/
theorem dispose_mapped_diverges (f : Nat) : ∀ (n : Nat) (st : St),
    mapLookup st.featMap (getFeat st f).lang = some f →
    (getFeat st f).svcHandlers = true →
    (getFeat st f).emittersOpen = true →
    featureDispose n st f =
      .error { st with log := st.log ++ List.replicate n (Ev.disposedFired f) } := by
  intro n
  induction n with
  | zero =>
    intro st hmap hh ho
    cases st
    simp [featureDispose]
  | succ n ih =>
    intro st hmap hh ho
    rw [featureDispose_step_mapped n st f f _ ho hh hmap
      (ih (logEv st (Ev.disposedFired f)) hmap hh ho)]
    cases st
    simp [logEv, List.replicate_succ]

/-- C1: registering feature B for language x while feature A is mapped is
claimed to dispose A exactly once and then install B; in the code the
Initialized handler calls dispose on A, whose own Disposed handler finds A
still mapped and calls dispose on A again, recursing without bound. For
every fuel the run fails to complete and B is never installed as the
mapped feature. -/
theorem claim1_supersede_never_installs (fuel : Nat) :
    completed (scenarioSupersede fuel) = false ∧
      Ev.installed 1 "x" ∉ resLog (scenarioSupersede fuel) := by
  have hpre : scenarioSupersede fuel = initializeFeature fuel stRegisteredB 1 true true := rfl
  have hdiv := dispose_mapped_diverges 0 fuel (logEv stRegisteredB (Ev.initializedFired 1))
    rfl rfl rfl
  have hfire := fireInitialized_step_mapped fuel stRegisteredB 1 0 _ rfl rfl rfl hdiv
  have hrun := initializeFeature_of_fire_error fuel stRegisteredB 1 _ hfire
  rw [hpre, hrun]
  refine ⟨rfl, ?_⟩
  simp [resLog, logEv, stRegisteredB, List.mem_append, List.mem_replicate]

/-- C2 counterexample: with feature 0 mapped for x and feature 1 registered
but never installed, disposing feature 1 makes the service invoke dispose
on the mapped feature 0, so the Disposed event of 0 fires even though the
firing feature 1 was never the mapped one; the run also never completes. -/
theorem claim2_disposed_not_mapped_counterexample :
    completed (scenarioForeignDispose 3) = false ∧
      Ev.disposedFired 0 ∈ resLog (scenarioForeignDispose 3) ∧
      Ev.disposedFired 1 ∈ resLog (scenarioForeignDispose 3) ∧
      Ev.installed 1 "x" ∉ resLog (scenarioForeignDispose 3) := by decide

/-- C2 amended: the Disposed handler installed by the service checks only
whether some feature is mapped for the languageId of the firing feature,
not whether the firing feature is the mapped one; a Disposed event from a
registered but never installed feature makes the service invoke dispose on
the currently mapped feature, whose Disposed event observably fires. -/
theorem claim2_disposed_handler_ignores_identity (fuel : Nat) :
    completed (scenarioForeignDispose (fuel + 2)) = false ∧
      Ev.disposedFired 0 ∈ resLog (scenarioForeignDispose (fuel + 2)) := by
  have hpre : scenarioForeignDispose (fuel + 2) =
      featureDispose (fuel + 2) stRegisteredB 1 := rfl
  have hdiv := dispose_mapped_diverges 0 (fuel + 1)
    (logEv stRegisteredB (Ev.disposedFired 1)) rfl rfl rfl
  have hstep := featureDispose_step_mapped (fuel + 1) stRegisteredB 1 0 _ rfl rfl rfl hdiv
  rw [hpre, hstep]
  refine ⟨rfl, ?_⟩
  simp [resLog, logEv, stRegisteredB, List.mem_append, List.mem_replicate]

/-- C3 counterexample: an argument that already has the position request
shape is not passed through unchanged; subTypes overwrites its resolve
field (5 becomes 1) and its direction field (parents becomes children). -/
theorem claim3_passthrough_counterexample :
    subTypesParams (Arg.params samplePositionParams) ≠ samplePositionParams ∧
      (subTypesParams (Arg.params samplePositionParams)).resolve ≠
        samplePositionParams.resolve ∧
      (subTypesParams (Arg.params samplePositionParams)).direction ≠
        samplePositionParams.direction := by decide

/-- C3 amended: for an already position shaped argument the position and
textDocument fields are passed through unchanged, but the service then
overwrites resolve with 1 and direction with the requested side on the
very request it forwards. -/
theorem claim3_passthrough_rewrites_resolve_direction (p : TypeHierarchyParams) :
    superTypesParams (Arg.params p) =
        { p with resolve := some 1, direction := some Direction.parents } ∧
      subTypesParams (Arg.params p) =
        { p with resolve := some 1, direction := some Direction.children } :=
  ⟨rfl, rfl⟩

/-- C4 counterexample: a second call to initialize with the same supported
capabilities and selector fires Initialized a second time and performs a
second client registration with a fresh identifier. -/
theorem claim4_second_negotiation_counterexample :
    completed (negotiateTwice "x" 1) = true ∧
      (resLog (negotiateTwice "x" 1)).count (Ev.initializedFired 0) = 2 ∧
      (resLog (negotiateTwice "x" 1)).count (Ev.clientRegistered 0 1) = 1 := by decide

/-- C4 amended: negotiation is not guarded against repetition; every call
to initialize with a selector and a supported capability fires Initialized
and registers the client once more with a fresh identifier, so two calls
produce two firings and two registrations with distinct identifiers. -/
theorem claim4_negotiation_not_idempotent (lang : String) (fuel : Nat) :
    completed (negotiateTwice lang fuel) = true ∧
      resLog (negotiateTwice lang fuel) =
        [Ev.initializedFired 0, Ev.clientRegistered 0 0,
         Ev.initializedFired 0, Ev.clientRegistered 0 1] :=
  ⟨rfl, rfl⟩

/-- C5 counterexample: in a completed negotiation both the registration and
the Initialized firing occur, but the registration does not strictly
precede the Initialized firing. -/
theorem claim5_order_counterexample :
    completed (negotiateOnce "x" 1) = true ∧
      Ev.clientRegistered 0 0 ∈ resLog (negotiateOnce "x" 1) ∧
      Ev.initializedFired 0 ∈ resLog (negotiateOnce "x" 1) ∧
      firesBeforeB (resLog (negotiateOnce "x" 1))
        (Ev.clientRegistered 0 0) (Ev.initializedFired 0) = false := by decide

/-- C5 amended: when negotiation finds the capability supported it fires
Initialized first and only then generates the fresh identifier and
registers the client, so the Initialized firing strictly precedes the
registration. -/
theorem claim5_initialized_precedes_registration (lang : String) (fuel : Nat) :
    resLog (negotiateOnce lang fuel) =
        [Ev.initializedFired 0, Ev.clientRegistered 0 0] ∧
      firesBeforeB (resLog (negotiateOnce lang fuel))
        (Ev.initializedFired 0) (Ev.clientRegistered 0 0) = true :=
  ⟨rfl, rfl⟩

/-- C6 counterexample: disposing a feature that was never initialized is
not a silent no-op, and double disposal fires the Disposed event twice. -/
theorem claim6_double_dispose_counterexample :
    completed (disposeTwice "x" 1) = true ∧
      (resLog (disposeTwice "x" 1)).count (Ev.disposedFired 0) = 2 := by decide

/-- C6 amended: dispose never raises, but it is not single-fire by guard:
every dispose call while the emitters are open fires Disposed again, so a
feature that never completed registration fires Disposed on every dispose
call, including before initialization; only after a feature completed
registration does the first dispose close the emitters, making later
dispose calls silent. -/
theorem claim6_dispose_refires_until_registered (lang : String) (n : Nat) :
    (completed (disposeTwice lang (n + 1)) = true ∧
        resLog (disposeTwice lang (n + 1)) = [Ev.disposedFired 0, Ev.disposedFired 0]) ∧
      (completed (negotiateThenDisposeTwice lang (n + 1)) = true ∧
        resLog (negotiateThenDisposeTwice lang (n + 1)) =
          [Ev.initializedFired 0, Ev.clientRegistered 0 0, Ev.disposedFired 0]) :=
  ⟨⟨rfl, rfl⟩, ⟨rfl, rfl⟩⟩

/-- C7: for an item or a location the derived request takes its position
from range.start and its uri from the argument, sets resolve to 1, and
sets direction to parents for superTypes and children for subTypes. -/
theorem claim7_derived_request_fields (i : TypeHierarchyItem) (l : Location) :
    superTypesParams (Arg.item i) =
        { textDocument := { uri := i.uri }, position := i.range.start,
          resolve := some 1, direction := some Direction.parents } ∧
      subTypesParams (Arg.item i) =
        { textDocument := { uri := i.uri }, position := i.range.start,
          resolve := some 1, direction := some Direction.children } ∧
      superTypesParams (Arg.loc l) =
        { textDocument := { uri := l.uri }, position := l.range.start,
          resolve := some 1, direction := some Direction.parents } ∧
      subTypesParams (Arg.loc l) =
        { textDocument := { uri := l.uri }, position := l.range.start,
          resolve := some 1, direction := some Direction.children } :=
  ⟨rfl, rfl, rfl, rfl⟩

/-- C8: flip is an involution on the two defined direction values, and on
any other input it fails with the invalid argument error. -/
theorem claim8_flip_involution_invalid_error :
    (∀ t, t = "subtype" ∨ t = "supertype" → (flip t).bind flip = .ok t) ∧
      (∀ t, t ≠ "subtype" → t ≠ "supertype" → ∃ msg, flip t = .error msg) := by
  constructor
  · rintro t (rfl | rfl) <;> rfl
  · intro t h1 h2
    exact ⟨"Unexpected type hierarchy type: " ++ t ++ ".",
      by simp only [flip, if_neg h1, if_neg h2]⟩

/-- C8 witness: the involution at both defined values and the failure at a
concrete out of domain input. -/
theorem claim8_flip_witness :
    (flip "subtype").bind flip = .ok "subtype" ∧
      (flip "supertype").bind flip = .ok "supertype" ∧
      ∃ msg, flip "both" = .error msg :=
  ⟨claim8_flip_involution_invalid_error.1 "subtype" (Or.inl rfl),
   claim8_flip_involution_invalid_error.1 "supertype" (Or.inr rfl),
   claim8_flip_involution_invalid_error.2 "both" (by decide) (by decide)⟩

/-- C9: absence of a result is never an error: get normalizes a protocol
level null response to undefined and returns the backend item otherwise,
and a query for a language with no mapped feature returns undefined. -/
theorem claim9_absence_not_error :
    (∀ b p, b p = TypeHierarchyResponse.nullResponse → featGet b p = none) ∧
      (∀ b p i, b p = TypeHierarchyResponse.item i → featGet b p = some i) ∧
      (∀ fs languageId arg, fs languageId = none →
        superTypes fs languageId arg = none ∧ subTypes fs languageId arg = none) := by
  refine ⟨?_, ?_, ?_⟩
  · intro b p h
    simp [featGet, h]
  · intro b p i h
    simp [featGet, h]
  · intro fs languageId arg h
    constructor <;> simp [superTypes, subTypes, types, h]

/-- C9 witness: the null normalizing backend, the item backend, and the
empty service map at concrete inputs. -/
theorem claim9_absence_witness :
    featGet nullBackend (superTypesParams (Arg.item sampleItem)) = none ∧
      featGet itemBackend (superTypesParams (Arg.item sampleItem)) = some sampleItem ∧
      superTypes noFeatures "go" (Arg.item sampleItem) = none :=
  ⟨claim9_absence_not_error.1 nullBackend _ rfl,
   claim9_absence_not_error.2.1 itemBackend _ sampleItem rfl,
   (claim9_absence_not_error.2.2 noFeatures "go" (Arg.item sampleItem) rfl).1⟩

/-- C10: the normalized request built from an item depends only on the uri
and on range.start; changing the name, detail, kind, deprecation flag,
selection range, data token or range end leaves the request unchanged, and
the request consists exactly of textDocument.uri, position, resolve and
direction. -/
theorem claim10_normalization_forwards_only_position (i : TypeHierarchyItem)
    (d : Direction) (nm : String) (dt : Option String) (k : Nat) (dp : Option Bool)
    (sr : Range) (da : Option String) (e2 : Position) :
    typesParams (Arg.item
        { name := nm, detail := dt, kind := k, deprecated := dp, uri := i.uri,
          range := { start := i.range.start, «end» := e2 },
          selectionRange := sr, data := da }) d = typesParams (Arg.item i) d ∧
      typesParams (Arg.item i) d =
        { textDocument := { uri := i.uri }, position := i.range.start,
          resolve := some 1, direction := some d } :=
  ⟨rfl, rfl⟩

end Theia
